import Mathlib

/-!
Shallow embedding of the BettaFish desktop supervisor (`src/desktop/main.js`):
the backend process launcher with candidate fallback, the readiness polling
loop, the stop/teardown path, the child exit handler, the health probe, and
the timing policy constants.  Pure JS functions become Lean functions; the
module-level mutable variables (`pythonProcess`, `backendReady`, `isQuitting`)
become an explicit `SupState` record threaded through the transitions; the
network and the operating system are oracles passed in as arguments.
-/

namespace BettaFish

/-- `BACKEND_TIMEOUT_MS` from `main.js` line 9: overall readiness timeout. -/
def BACKEND_TIMEOUT_MS : Nat := 180000

/-- `BACKEND_CHECK_INTERVAL_MS` from `main.js` line 10: poll interval. -/
def BACKEND_CHECK_INTERVAL_MS : Nat := 1000

/-- The per-request probe timeout: the literal `3000` in
`request.setTimeout(3000, ...)` inside `pingBackend` (line 89). -/
def PING_TIMEOUT_MS : Nat := 3000

/-- The spawned backend child process (`child` in `startBackend`): the command
it was spawned from, its exit code (`null` while running), Node's `killed`
flag, and whether its event listeners are still attached
(`removeAllListeners` in `stopBackend` detaches them). -/
structure ChildHandle where
  command : String
  exitCode : Option Int
  killed : Bool
  listenersAttached : Bool
deriving DecidableEq

/-- The supervisor's module-level mutable state in `main.js`:
`pythonProcess` (line 12), `backendReady` (line 14), `isQuitting` (line 15). -/
structure SupState where
  pythonProcess : Option ChildHandle
  backendReady : Bool
  isQuitting : Bool
deriving DecidableEq

/-! ### Health probe (`pingBackend`, lines 77-93) -/

/-- What the single `http.get` of `pingBackend` can observe: a completed
response carrying a status code (`none` models a falsy/undefined
`statusCode`), a connection-level error, or the 3000 ms request timeout. -/
inductive HttpEvent where
  | response (statusCode : Option Nat)
  | connError (message : String)
  | timeout
deriving DecidableEq

/-- `pingBackend` (lines 77-93): resolves exactly when the response's status
code is truthy and in `[200, 400)`; any other completed response rejects with
an `Unexpected status code` error; a connection error rejects with that
error; firing of the 3000 ms request timeout destroys the request with a
`Request timed out` error, which rejects through the error listener. -/
def pingBackend (ev : HttpEvent) : Except String Unit :=
  match ev with
  | .response sc =>
    match sc with
    | some c =>
      if c ≠ 0 ∧ 200 ≤ c ∧ c < 400 then Except.ok ()
      else Except.error ("Unexpected status code " ++ toString c)
    | none => Except.error "Unexpected status code undefined"
  | .connError m => Except.error m
  | .timeout => Except.error "Request timed out"

/-! ### Candidate list construction (`startBackend`, lines 144-152) -/

/-- JavaScript's `String.prototype.trim()` as used on line 145-146: remove
every leading and trailing whitespace character. -/
def jsTrim (s : String) : String :=
  ⟨((s.data.dropWhile Char.isWhitespace).reverse.dropWhile Char.isWhitespace).reverse⟩

/-- Lines 144-152 of `startBackend`: the ordered interpreter candidate list.
The `PYTHON` environment variable (`none` = unset), when truthy (nonempty)
and with nonempty trimmed value, contributes its trimmed value first; then
the platform defaults follow (`python, python3` on win32; `python3, python`
elsewhere). -/
def buildCandidates (pythonEnv : Option String) (isWin32 : Bool) : List String :=
  let defaults := if isWin32 then ["python", "python3"] else ["python3", "python"]
  match pythonEnv with
  | some v =>
    if 0 < v.length ∧ 0 < (jsTrim v).length then jsTrim v :: defaults else defaults
  | none => defaults

/-! ### Spawn fallback loop (`trySpawn`, lines 154-207) -/

/-- Outcome of one `spawn(command, ...)` attempt, as observed through the
`spawn`/`error` events: success, or an error carrying Node's `error.code`
(for example `ENOENT` or `EACCES`). -/
inductive SpawnOutcome where
  | ok
  | err (code : String)
deriving DecidableEq

/-- Result of the whole `trySpawn` recursion: the promise resolves after some
candidate spawned, rejects with the failing candidate's error, or rejects
with the no-interpreter-found message once the list is exhausted. -/
inductive LaunchOutcome where
  | spawned (command : String)
  | launchError (code : String)
  | noInterpreterFound
deriving DecidableEq

/-- `trySpawn` (lines 155-204), iterating the candidate list: past the end it
rejects with the no-interpreter message (line 157); otherwise it spawns the
current candidate; on the `spawn` event it resolves; on an `error` event with
code `ENOENT` it recurses into the next candidate (line 175); on any other
error it rejects immediately (line 177). `spawnOf` is the operating system's
answer for each command. -/
def trySpawn (spawnOf : String → SpawnOutcome) : List String → LaunchOutcome
  | [] => .noInterpreterFound
  | cmd :: rest =>
    match spawnOf cmd with
    | .ok => .spawned cmd
    | .err code => if code = "ENOENT" then trySpawn spawnOf rest else .launchError code

/-- How `handleSpawn` (lines 181-200) initialises the stored child: spawned
from `command`, still running, not killed, exit/stdout/stderr listeners
attached. -/
def freshChild (command : String) : ChildHandle :=
  { command := command, exitCode := none, killed := false, listenersAttached := true }

/-- Result of a `startBackend` call, as the promise it returns settles. -/
inductive StartResult where
  | resolved
  | entryPointNotFound
  | spawnError (code : String)
  | noInterpreterFound
deriving DecidableEq

/-- `startBackend` (lines 132-208): if a child handle already exists, resolve
at once with no state change (lines 133-135); if the backend entry script is
missing, reject (lines 140-142); otherwise build the candidate list and run
`trySpawn`; on success store the fresh child and clear the readiness flag
(lines 183-184); on failure leave the state unchanged and reject. -/
def startBackend (pythonEnv : Option String) (isWin32 : Bool)
    (scriptExists : Bool) (spawnOf : String → SpawnOutcome)
    (s : SupState) : SupState × StartResult :=
  if s.pythonProcess.isSome then (s, .resolved)
  else if !scriptExists then (s, .entryPointNotFound)
  else
    match trySpawn spawnOf (buildCandidates pythonEnv isWin32) with
    | .spawned cmd =>
      ({ s with pythonProcess := some (freshChild cmd), backendReady := false },
       .resolved)
    | .launchError code => (s, .spawnError code)
    | .noInterpreterFound => (s, .noInterpreterFound)

/-! ### Readiness polling loop (`waitForBackendReady`, lines 95-110) -/

/-- The `!pythonProcess || pythonProcess.exitCode !== null` check on line
103, applied to an observation of `pythonProcess`: `none` means the handle
was cleared, `some ec` a handle whose `exitCode` is `ec`. -/
def childGone (obs : Option (Option Int)) : Bool :=
  match obs with
  | none => true
  | some ec => ec.isSome

/-- The environment one run of the polling loop interacts with, indexed by
iteration number: the HTTP event the `i`-th `pingBackend` call observes, how
many milliseconds that call takes before settling, and the value of
`pythonProcess` (with its exit code) the line-103 check observes after a
failed `i`-th ping. -/
structure PollEnv where
  httpEvent : Nat → HttpEvent
  pingDuration : Nat → Nat
  observedChild : Nat → Option (Option Int)

/-- Outcome of the readiness wait: normal return after a successful ping,
the line-104 child-exited rejection, or the line-109 timeout rejection. -/
inductive WaitOutcome where
  | Ready
  | ChildExited
  | TimedOut
deriving DecidableEq

/-- The `while (Date.now() - start < BACKEND_TIMEOUT_MS)` loop of
`waitForBackendReady` (lines 97-108), one constructor case per remaining
iteration budget (`fuel`).  `i` counts iterations, `now` is the clock at the
loop condition, `start` the captured start time.  A successful ping sets
`backendReady` and returns at `now` plus the ping's duration; a failed ping
with the child observed gone rejects at that same instant; otherwise the
loop sleeps `BACKEND_CHECK_INTERVAL_MS` and retries.  When the loop
condition fails, it rejects with the timeout error at `now`.  Exhausted fuel
with the loop condition still true yields `none`; the wrapper passes enough
fuel for that never to happen. -/
def waitLoopFuel (env : PollEnv) (s : SupState) :
    Nat → Nat → Nat → Nat → Option (WaitOutcome × SupState × Nat)
  | 0, _, now, start =>
    if now - start < BACKEND_TIMEOUT_MS then none
    else some (.TimedOut, s, now)
  | fuel + 1, i, now, start =>
    if now - start < BACKEND_TIMEOUT_MS then
      match pingBackend (env.httpEvent i) with
      | .ok _ =>
        some (.Ready, { s with backendReady := true }, now + env.pingDuration i)
      | .error _ =>
        if childGone (env.observedChild i) then
          some (.ChildExited, s, now + env.pingDuration i)
        else
          waitLoopFuel env s fuel (i + 1)
            (now + env.pingDuration i + BACKEND_CHECK_INTERVAL_MS) start
    else some (.TimedOut, s, now)

/-- Iteration budget that always suffices: each failed iteration advances the
clock by at least `BACKEND_CHECK_INTERVAL_MS = 1000`, so the loop condition
can hold at most `⌈180000 / 1000⌉ = 180` times. -/
def WAIT_LOOP_FUEL : Nat := 181

/-- `waitForBackendReady` (lines 95-110): capture `start`, run the polling
loop from iteration 0 at clock `start`. -/
def waitForBackendReady (env : PollEnv) (s : SupState) (start : Nat) :
    Option (WaitOutcome × SupState × Nat) :=
  waitLoopFuel env s WAIT_LOOP_FUEL 0 start start

/-! ### Teardown (`stopBackend`, lines 112-125) and exit handler -/

deriving instance DecidableEq for Except

/-- What `stopBackend` did, in order, when a child was present. -/
inductive StopAction where
  | removedListeners
  | killAttempted (result : Except String Unit)
deriving DecidableEq

/-- `stopBackend` (lines 112-125).  With no child it does nothing.  With a
child it detaches every listener, then — unless the child is already marked
killed — attempts `kill()`, whose outcome `killResult` (success, or an
exception) is swallowed by the `try/catch` on lines 116-120; finally it
clears `pythonProcess` and `backendReady`.  Returns the new supervisor
state, the actions taken, and the child object as it is left behind
(listeners detached, `killed` set when the kill signal was sent). -/
def stopBackend (killResult : Except String Unit) (s : SupState) :
    SupState × List StopAction × Option ChildHandle :=
  match s.pythonProcess with
  | none => (s, [], none)
  | some child =>
    if child.killed then
      ({ s with pythonProcess := none, backendReady := false },
       [StopAction.removedListeners],
       some { child with listenersAttached := false })
    else
      ({ s with pythonProcess := none, backendReady := false },
       [StopAction.removedListeners, StopAction.killAttempted killResult],
       some { child with
                listenersAttached := false,
                killed := match killResult with | .ok _ => true | .error _ => child.killed })

/-- The child's `exit` event (handler installed on lines 189-197) firing with
exit code `code` and signal `sig`.  The handler runs only while the child's
listeners are attached (`stopBackend`'s `removeAllListeners` detaches it);
it clears `pythonProcess` and `backendReady`, and shows the fatal
unexpected-exit dialog (and quits) only when `isQuitting` is not set.
Returns the new state and whether the dialog was shown. -/
def emitExit (child : ChildHandle) (code : Option Int) (sig : String)
    (s : SupState) : SupState × Bool :=
  if child.listenersAttached then
    ({ s with pythonProcess := none, backendReady := false }, !s.isQuitting)
  else (s, false)

/-- The `before-quit` handler (lines 64-67): set `isQuitting`, then run
`stopBackend`. -/
def beforeQuit (killResult : Except String Unit) (s : SupState) :
    SupState × List StopAction × Option ChildHandle :=
  stopBackend killResult { s with isQuitting := true }

/-! ### Concrete fixtures used to instantiate the theorems -/

/-- A freshly spawned, still-running child. -/
def childRunning : ChildHandle := freshChild "python3"

/-- Supervisor state with an active child, not ready, not quitting. -/
def supWithChild : SupState :=
  { pythonProcess := some childRunning, backendReady := false, isQuitting := false }

/-- Supervisor state with no child. -/
def supNoChild : SupState :=
  { pythonProcess := none, backendReady := false, isQuitting := false }

/-- Network where the very first probe succeeds with status 200 after 5 ms. -/
def envPingOk : PollEnv :=
  { httpEvent := fun _ => .response (some 200)
    pingDuration := fun _ => 5
    observedChild := fun _ => some none }

/-- Network where every probe is refused instantly and the child stays
alive. -/
def envRefusedFast : PollEnv :=
  { httpEvent := fun _ => .connError "connect ECONNREFUSED 127.0.0.1:5000"
    pingDuration := fun _ => 0
    observedChild := fun _ => some none }

/-- Network where every probe is refused, the child stays alive, and each
probe takes almost the full 3000 ms request timeout (2999 ms for the first,
3000 ms for the rest) — durations every failing request is allowed to
take. -/
def envRefusedSlow : PollEnv :=
  { httpEvent := fun _ => .connError "connect ECONNREFUSED 127.0.0.1:5000"
    pingDuration := fun j => if j = 0 then 2999 else 3000
    observedChild := fun _ => some none }

/-- Network where every probe is refused after 7 ms and the `pythonProcess`
handle is observed already cleared. -/
def envChildGone : PollEnv :=
  { httpEvent := fun _ => .connError "connect ECONNREFUSED 127.0.0.1:5000"
    pingDuration := fun _ => 7
    observedChild := fun _ => none }

/-! ### C1: spawn fallback policy -/

/-- C1: in the spawn-fallback loop, a candidate that fails with `ENOENT`
fails over to the next candidate; a spawn failure with any other error code
rejects the whole launch with that error immediately, whatever candidates
remain; and when every candidate fails with `ENOENT` the launch rejects
with the no-interpreter-found error. -/
theorem trySpawn_fallback_policy (spawnOf : String → SpawnOutcome) :
    (∀ candidates : List String,
      (∀ cmd ∈ candidates, spawnOf cmd = .err "ENOENT") →
      trySpawn spawnOf candidates = .noInterpreterFound)
    ∧ (∀ (cmd : String) (rest : List String) (code : String),
      spawnOf cmd = .err code → code ≠ "ENOENT" →
      trySpawn spawnOf (cmd :: rest) = .launchError code)
    ∧ (∀ (cmd : String) (rest : List String),
      spawnOf cmd = .err "ENOENT" →
      trySpawn spawnOf (cmd :: rest) = trySpawn spawnOf rest) := by
  refine ⟨?_, ?_, ?_⟩
  · intro candidates h
    induction candidates with
    | nil => rfl
    | cons c cs ih =>
      have hc := h c (List.mem_cons_self c cs)
      simp only [trySpawn, hc, if_pos]
      exact ih fun cmd hm => h cmd (List.mem_cons_of_mem c hm)
  · intro cmd rest code hc hne
    simp only [trySpawn, hc, if_neg hne]
  · intro cmd rest hc
    simp only [trySpawn, hc, if_pos]

/-- Witness for C1 at concrete inputs: two candidates both missing reject
with no-interpreter-found; a first candidate failing with `EACCES` rejects
immediately with that error even though a working candidate follows. -/
theorem trySpawn_fallback_policy_witness :
    trySpawn (fun _ => SpawnOutcome.err "ENOENT") ["python3", "python"]
      = .noInterpreterFound
    ∧ trySpawn (fun c => if c = "deniedcmd" then SpawnOutcome.err "EACCES" else .ok)
        ["deniedcmd", "python"] = .launchError "EACCES" := by
  constructor
  · exact (trySpawn_fallback_policy (fun _ => SpawnOutcome.err "ENOENT")).1
      ["python3", "python"] (by intro cmd hm; rfl)
  · exact (trySpawn_fallback_policy _).2.1 "deniedcmd" ["python"] "EACCES"
      (by decide) (by decide)

/-! ### C2: idempotent launch while a child is active -/

/-- C2: calling `startBackend` while `pythonProcess` already holds a child
resolves immediately with the state untouched; the result does not depend on
the operating system's spawn behaviour, so no second child is spawned. -/
theorem startBackend_noop_when_active (pythonEnv : Option String)
    (isWin32 scriptExists : Bool) (spawnOf : String → SpawnOutcome)
    (s : SupState) (child : ChildHandle)
    (h : s.pythonProcess = some child) :
    startBackend pythonEnv isWin32 scriptExists spawnOf s = (s, .resolved) := by
  simp [startBackend, h]

/-- Witness for C2: a concrete active state is returned unchanged. -/
theorem startBackend_noop_when_active_witness :
    startBackend none false true (fun _ => SpawnOutcome.ok) supWithChild
      = (supWithChild, .resolved) :=
  startBackend_noop_when_active none false true _ supWithChild childRunning rfl

/-! ### C8: health probe classification -/

/-- C8: a single `pingBackend` probe resolves exactly when the response's
status code lies in 200–399; any other completed response rejects, a
connection error rejects with that error, and the per-request timeout
rejects with the timed-out error. -/
theorem pingBackend_classification (sc : Option Nat) (m : String) :
    (pingBackend (.response sc) = .ok () ↔ ∃ c, sc = some c ∧ 200 ≤ c ∧ c < 400)
    ∧ pingBackend (.connError m) = .error m
    ∧ pingBackend .timeout = .error "Request timed out" := by
  refine ⟨?_, rfl, rfl⟩
  cases sc with
  | none => simp [pingBackend]
  | some c =>
    by_cases h : c ≠ 0 ∧ 200 ≤ c ∧ c < 400
    · simp only [pingBackend, if_pos h]
      exact ⟨fun _ => ⟨c, rfl, h.2.1, h.2.2⟩, fun _ => trivial⟩
    · simp only [pingBackend, if_neg h]
      constructor
      · intro hcontra; exact absurd hcontra (by simp)
      · rintro ⟨c', hc', h200, h400⟩
        cases Option.some.inj hc'
        exact absurd ⟨by omega, h200, h400⟩ h

/-- Witness for C8: status 204 resolves, status 500 rejects, a connection
error and the request timeout reject. -/
theorem pingBackend_classification_witness :
    pingBackend (.response (some 204)) = .ok ()
    ∧ pingBackend (.connError "socket hang up") = .error "socket hang up" := by
  constructor
  · exact (pingBackend_classification (some 204) "").1.mpr ⟨204, rfl, by decide, by decide⟩
  · exact (pingBackend_classification (some 204) "socket hang up").2.1

/-! ### C9: timing policy constants -/

/-- Counterexample for C9 as stated: the per-request probe timeout (3000 ms)
is NOT shorter than the poll interval (1000 ms). -/
theorem ping_timeout_not_shorter_than_interval :
    ¬ PING_TIMEOUT_MS < BACKEND_CHECK_INTERVAL_MS := by decide

/-- C9 (amended): the per-request probe timeout is three times the poll
interval — longer, not shorter; the poll interval is exactly one second; and
the overall readiness timeout is exactly three minutes. -/
theorem policy_constants_relations :
    PING_TIMEOUT_MS = 3 * BACKEND_CHECK_INTERVAL_MS
    ∧ BACKEND_CHECK_INTERVAL_MS < PING_TIMEOUT_MS
    ∧ BACKEND_CHECK_INTERVAL_MS = 1000
    ∧ BACKEND_TIMEOUT_MS = 3 * 60 * 1000 := by decide

/-! ### C10: the PYTHON override is trimmed; whitespace-only is absent -/

/-- A string whose trimmed form is nonempty is itself nonempty. -/
theorem length_pos_of_jsTrim_length_pos (v : String)
    (h : 0 < (jsTrim v).length) : 0 < v.length := by
  obtain ⟨d⟩ := v
  cases d with
  | nil => simp [jsTrim, String.length] at h
  | cons a t => exact Nat.succ_pos t.length

/-- C10: a set `PYTHON` override is trimmed of surrounding whitespace before
becoming the first candidate; a whitespace-only (or empty) value is treated
as absent, leaving exactly the platform-default candidates, `python` then
`python3` on win32 and `python3` then `python` elsewhere. -/
theorem buildCandidates_trims_override (v : String) (isWin32 : Bool) :
    (0 < (jsTrim v).length →
      buildCandidates (some v) isWin32 = jsTrim v :: buildCandidates none isWin32)
    ∧ ((jsTrim v).length = 0 →
      buildCandidates (some v) isWin32 = buildCandidates none isWin32)
    ∧ buildCandidates none true = ["python", "python3"]
    ∧ buildCandidates none false = ["python3", "python"] := by
  refine ⟨?_, ?_, rfl, rfl⟩
  · intro h
    have hv := length_pos_of_jsTrim_length_pos v h
    simp only [buildCandidates, if_pos (And.intro hv h)]
  · intro h
    have : ¬ (0 < v.length ∧ 0 < (jsTrim v).length) := by
      rintro ⟨-, hpos⟩; omega
    simp only [buildCandidates, if_neg this]

/-- Witness for C10: a padded override is trimmed into the first candidate;
a whitespace-only override leaves only the platform defaults. -/
theorem buildCandidates_trims_override_witness :
    buildCandidates (some "  /usr/bin/py3  ") false
      = ["/usr/bin/py3", "python3", "python"]
    ∧ buildCandidates (some "   ") true = ["python", "python3"] := by
  constructor
  · have h := (buildCandidates_trims_override "  /usr/bin/py3  " false).1 (by decide)
    rw [h]
    decide
  · have h := (buildCandidates_trims_override "   " true).2.1 (by decide)
    rw [h]
    decide

/-! ### C3: prompt ChildExited on a dead child -/

/-- C3: in any iteration of the readiness loop (any remaining fuel, any
iteration index, any clock inside the deadline), if the ping fails and the
line-103 check observes the handle cleared or the exit code set, the loop
returns `ChildExited` at the instant the ping settles — no further poll
sleep and no waiting for the overall timeout. -/
theorem waitLoop_child_exit_immediate (env : PollEnv) (s : SupState)
    (fuel i now start : Nat) (msg : String)
    (hlt : now - start < BACKEND_TIMEOUT_MS)
    (hping : pingBackend (env.httpEvent i) = .error msg)
    (hgone : childGone (env.observedChild i) = true) :
    waitLoopFuel env s (fuel + 1) i now start
      = some (.ChildExited, s, now + env.pingDuration i) := by
  simp only [waitLoopFuel, if_pos hlt, hping, hgone, if_true]

/-- Witness for C3: with every probe refused after 7 ms and the handle
observed cleared, the wait returns `ChildExited` at 7 ms — one ping's
duration, not a poll interval, not the 180 s timeout. -/
theorem waitLoop_child_exit_immediate_witness :
    waitForBackendReady envChildGone supWithChild 0
      = some (.ChildExited, supWithChild, 7) :=
  waitLoop_child_exit_immediate envChildGone supWithChild 180 0 0 0
    "connect ECONNREFUSED 127.0.0.1:5000" (by decide) rfl rfl

/-! ### C4: what the readiness wait mutates -/

/-- Counterexample to C4 as stated: `waitForBackendReady` is NOT
mutation-free — on a successful probe it sets the readiness flag, so the
resulting state differs from the initial one. -/
theorem waitForBackendReady_mutates_readiness :
    waitForBackendReady envPingOk supWithChild 0
      = some (.Ready, { supWithChild with backendReady := true }, 5)
    ∧ { supWithChild with backendReady := true } ≠ supWithChild := by
  exact ⟨by decide, by decide⟩

/-- C4 (amended): the readiness wait never touches the child handle or the
quitting flag; on `TimedOut` and `ChildExited` it leaves the whole state
unchanged; on `Ready` its only mutation is setting the readiness flag. -/
theorem waitLoop_frame (env : PollEnv) (s : SupState) :
    ∀ (fuel i now start : Nat) (out : WaitOutcome) (s' : SupState) (T : Nat),
    waitLoopFuel env s fuel i now start = some (out, s', T) →
    s'.pythonProcess = s.pythonProcess ∧ s'.isQuitting = s.isQuitting
    ∧ (out = .Ready → s' = { s with backendReady := true })
    ∧ (out ≠ .Ready → s' = s) := by
  intro fuel
  induction fuel with
  | zero =>
    intro i now start out s' T h
    simp only [waitLoopFuel] at h
    split at h
    · exact absurd h (by simp)
    · simp only [Option.some.injEq, Prod.mk.injEq] at h
      obtain ⟨rfl, rfl, rfl⟩ := h
      refine ⟨rfl, rfl, ?_, ?_⟩
      · intro hco; cases hco
      · intro _; rfl
  | succ fuel ih =>
    intro i now start out s' T h
    simp only [waitLoopFuel] at h
    split at h
    · split at h
      · simp only [Option.some.injEq, Prod.mk.injEq] at h
        obtain ⟨rfl, rfl, rfl⟩ := h
        refine ⟨rfl, rfl, ?_, ?_⟩
        · intro _; rfl
        · intro hco; exact absurd rfl hco
      · split at h
        · simp only [Option.some.injEq, Prod.mk.injEq] at h
          obtain ⟨rfl, rfl, rfl⟩ := h
          refine ⟨rfl, rfl, ?_, ?_⟩
          · intro hco; cases hco
          · intro _; rfl
        · exact ih _ _ _ _ _ _ h
    · simp only [Option.some.injEq, Prod.mk.injEq] at h
      obtain ⟨rfl, rfl, rfl⟩ := h
      refine ⟨rfl, rfl, ?_, ?_⟩
      · intro hco; cases hco
      · intro _; rfl

/-- Witness for C4's amended frame condition at a concrete run. -/
theorem waitLoop_frame_witness :
    ({ supWithChild with backendReady := true } : SupState).pythonProcess
        = supWithChild.pythonProcess
    ∧ ({ supWithChild with backendReady := true } : SupState).isQuitting
        = supWithChild.isQuitting
    ∧ (WaitOutcome.Ready = .Ready →
        ({ supWithChild with backendReady := true } : SupState)
          = { supWithChild with backendReady := true })
    ∧ (WaitOutcome.Ready ≠ .Ready →
        ({ supWithChild with backendReady := true } : SupState) = supWithChild) :=
  waitLoop_frame envPingOk supWithChild WAIT_LOOP_FUEL 0 0 0 .Ready
    { supWithChild with backendReady := true } 5 (by decide)

/-! ### C5: timeout deadline and its tolerance -/

/-- Once the clock has reached the deadline, the loop returns `TimedOut` at
the current instant, whatever fuel remains. -/
theorem waitLoopFuel_expired (env : PollEnv) (s : SupState)
    (fuel i now start : Nat) (h : ¬ now - start < BACKEND_TIMEOUT_MS) :
    waitLoopFuel env s fuel i now start = some (.TimedOut, s, now) := by
  cases fuel <;> simp only [waitLoopFuel, if_neg h]

/-- Fuel of one unit per poll interval that fits in the timeout is always
enough: the loop never runs out of fuel before the deadline. -/
theorem waitLoopFuel_isSome (env : PollEnv) (s : SupState) :
    ∀ (fuel i now start : Nat), start ≤ now →
    BACKEND_TIMEOUT_MS ≤ now - start + fuel * BACKEND_CHECK_INTERVAL_MS →
    waitLoopFuel env s fuel i now start ≠ none := by
  intro fuel
  induction fuel with
  | zero =>
    intro i now start hle hbound
    have hstop : ¬ now - start < BACKEND_TIMEOUT_MS := by
      simp only [BACKEND_TIMEOUT_MS] at hbound ⊢
      omega
    rw [waitLoopFuel_expired env s 0 i now start hstop]
    simp
  | succ fuel ih =>
    intro i now start hle hbound
    by_cases hlt : now - start < BACKEND_TIMEOUT_MS
    · simp only [waitLoopFuel, if_pos hlt]
      cases hping : pingBackend (env.httpEvent i) with
      | ok u => simp
      | error e =>
        by_cases hg : childGone (env.observedChild i) = true
        · simp [hg]
        · simp only [hg, if_false, if_neg hg]
          apply ih (i + 1)
          · omega
          · simp only [BACKEND_TIMEOUT_MS, BACKEND_CHECK_INTERVAL_MS] at hbound ⊢
            omega
    · rw [waitLoopFuel_expired env s _ i now start hlt]
      simp

/-- If every probe fails, the child is always observed alive, and each probe
takes at most the 3000 ms request timeout, the loop (with any fuel) either
runs out of fuel or returns `TimedOut` with the state unchanged at an
elapsed time that is at least the deadline and overshoots it by less than
one ping duration plus one poll interval. -/
theorem waitLoopFuel_timeout_bound (env : PollEnv) (s : SupState)
    (hfail : ∀ j, ∃ e, pingBackend (env.httpEvent j) = .error e)
    (halive : ∀ j, childGone (env.observedChild j) = false)
    (hdur : ∀ j, env.pingDuration j ≤ PING_TIMEOUT_MS) :
    ∀ (fuel i now start : Nat), start ≤ now →
    now - start < BACKEND_TIMEOUT_MS →
    waitLoopFuel env s fuel i now start = none
    ∨ ∃ T, waitLoopFuel env s fuel i now start = some (.TimedOut, s, T)
        ∧ BACKEND_TIMEOUT_MS ≤ T - start
        ∧ T - start < BACKEND_TIMEOUT_MS + PING_TIMEOUT_MS + BACKEND_CHECK_INTERVAL_MS := by
  intro fuel
  induction fuel with
  | zero =>
    intro i now start hle hlt
    left
    simp only [waitLoopFuel, if_pos hlt]
  | succ fuel ih =>
    intro i now start hle hlt
    obtain ⟨e, he⟩ := hfail i
    have hg := halive i
    simp only [waitLoopFuel, if_pos hlt, he, hg, if_false, Bool.false_eq_true, if_neg]
    by_cases hlt' :
        now + env.pingDuration i + BACKEND_CHECK_INTERVAL_MS - start < BACKEND_TIMEOUT_MS
    · exact ih (i + 1) _ start (by omega) hlt'
    · right
      refine ⟨now + env.pingDuration i + BACKEND_CHECK_INTERVAL_MS,
        waitLoopFuel_expired env s fuel (i + 1) _ start hlt', ?_, ?_⟩
      · omega
      · have hd := hdur i
        omega

/-- C5 (amended): when no probe ever succeeds and the child stays alive,
`waitForBackendReady` returns `TimedOut` with unchanged state at an elapsed
time that reaches the 180 s deadline — at, not before — and overshoots it by
less than one poll interval PLUS one per-request timeout (3000 ms), not
within one poll interval alone. -/
theorem waitForBackendReady_timeout_bound (env : PollEnv) (s : SupState) (start : Nat)
    (hfail : ∀ j, ∃ e, pingBackend (env.httpEvent j) = .error e)
    (halive : ∀ j, childGone (env.observedChild j) = false)
    (hdur : ∀ j, env.pingDuration j ≤ PING_TIMEOUT_MS) :
    ∃ T, waitForBackendReady env s start = some (.TimedOut, s, T)
      ∧ BACKEND_TIMEOUT_MS ≤ T - start
      ∧ T - start < BACKEND_TIMEOUT_MS + PING_TIMEOUT_MS + BACKEND_CHECK_INTERVAL_MS := by
  have hne := waitLoopFuel_isSome env s WAIT_LOOP_FUEL 0 start start (le_refl start)
    (by simp only [WAIT_LOOP_FUEL, BACKEND_TIMEOUT_MS, BACKEND_CHECK_INTERVAL_MS]; omega)
  have hb := waitLoopFuel_timeout_bound env s hfail halive hdur
    WAIT_LOOP_FUEL 0 start start (le_refl start)
    (by simp only [BACKEND_TIMEOUT_MS]; omega)
  unfold waitForBackendReady
  rcases hb with hnone | hsome
  · exact absurd hnone hne
  · exact hsome

/-- Witness for C5's amended bound: instantly-refused probes with the child
alive drive the wait to `TimedOut` within the proven window. -/
theorem waitForBackendReady_timeout_bound_witness :
    ∃ T, waitForBackendReady envRefusedFast supWithChild 0
        = some (.TimedOut, supWithChild, T)
      ∧ BACKEND_TIMEOUT_MS ≤ T - 0
      ∧ T - 0 < BACKEND_TIMEOUT_MS + PING_TIMEOUT_MS + BACKEND_CHECK_INTERVAL_MS :=
  waitForBackendReady_timeout_bound envRefusedFast supWithChild 0
    (fun _ => ⟨"connect ECONNREFUSED 127.0.0.1:5000", rfl⟩)
    (fun _ => rfl) (fun _ => Nat.zero_le PING_TIMEOUT_MS)

/-- Counterexample to C5 as stated: with every probe refused and each probe
taking no more than its allowed 3000 ms, the wait returns `TimedOut` only at
183 999 ms elapsed — 3 999 ms past the 180 000 ms deadline, strictly beyond
the claimed one-poll-interval (1000 ms) tolerance. -/
theorem waitForBackendReady_exceeds_interval_tolerance :
    waitForBackendReady envRefusedSlow supWithChild 0
      = some (.TimedOut, supWithChild, 183999)
    ∧ BACKEND_TIMEOUT_MS + BACKEND_CHECK_INTERVAL_MS < 183999 := by
  exact ⟨by decide, by decide⟩

/-! ### C6: stopBackend is an idempotent, error-swallowing no-op-safe stop -/

/-- C6: `stopBackend` with no child is a no-op; with a child it clears the
handle and the readiness flag (leaving the quitting flag alone) and detaches
the listeners; the state outcome is the same whether the kill attempt
succeeds or raises (the error is swallowed); and an immediately repeated
stop is a no-op that produces no error. -/
theorem stopBackend_idempotent_swallows (s : SupState) (kr : Except String Unit) :
    (s.pythonProcess = none → stopBackend kr s = (s, [], none))
    ∧ (∀ child, s.pythonProcess = some child →
        (stopBackend kr s).1 = { s with pythonProcess := none, backendReady := false }
        ∧ StopAction.removedListeners ∈ (stopBackend kr s).2.1)
    ∧ (∀ e, (stopBackend (Except.error e) s).1 = (stopBackend (Except.ok ()) s).1)
    ∧ (∀ kr2, stopBackend kr2 (stopBackend kr s).1 = ((stopBackend kr s).1, [], none)) := by
  refine ⟨?_, ?_, ?_, ?_⟩
  · intro h
    simp [stopBackend, h]
  · intro child h
    by_cases hk : child.killed <;> simp [stopBackend, h, hk]
  · intro e
    cases hp : s.pythonProcess with
    | none => simp [stopBackend, hp]
    | some child => by_cases hk : child.killed <;> simp [stopBackend, hp, hk]
  · intro kr2
    cases hp : s.pythonProcess with
    | none => simp [stopBackend, hp]
    | some child => by_cases hk : child.killed <;> simp [stopBackend, hp, hk]

/-- Witness for C6: stopping with no child is a no-op, and stopping twice in
a row — the kill attempt of the first stop raising `ESRCH` — is safe, the
second stop doing nothing. -/
theorem stopBackend_idempotent_swallows_witness :
    stopBackend (Except.error "ESRCH") supNoChild = (supNoChild, [], none)
    ∧ stopBackend (Except.ok ()) (stopBackend (Except.error "ESRCH") supWithChild).1
      = ((stopBackend (Except.error "ESRCH") supWithChild).1, [], none) := by
  constructor
  · exact (stopBackend_idempotent_swallows supNoChild (Except.error "ESRCH")).1 rfl
  · exact (stopBackend_idempotent_swallows supWithChild
      (Except.error "ESRCH")).2.2.2 (Except.ok ())

/-! ### C7: no unexpected-exit dialog after a stop or during shutdown -/

/-- C7: after `stopBackend` ran, the handle is cleared, and an exit event of
the stopped child (its listeners detached) runs no handler: the state stays
as the stop left it and no crash dialog appears — likewise after the
`before-quit` sequence; and even with listeners still attached, an exit
observed while `isQuitting` is set shows no crash dialog. -/
theorem stop_suppresses_exit_dialog (s : SupState) (kr : Except String Unit)
    (code : Option Int) (sig : String) :
    ((stopBackend kr s).1.pythonProcess = none)
    ∧ (∀ resid, (stopBackend kr s).2.2 = some resid →
        emitExit resid code sig (stopBackend kr s).1 = ((stopBackend kr s).1, false))
    ∧ (∀ resid, (beforeQuit kr s).2.2 = some resid →
        (emitExit resid code sig (beforeQuit kr s).1).2 = false)
    ∧ (∀ child : ChildHandle, s.isQuitting = true →
        (emitExit child code sig s).2 = false) := by
  refine ⟨?_, ?_, ?_, ?_⟩
  · cases hp : s.pythonProcess with
    | none => simp [stopBackend, hp]
    | some child => by_cases hk : child.killed <;> simp [stopBackend, hp, hk]
  · intro resid h
    cases hp : s.pythonProcess with
    | none => simp [stopBackend, hp] at h
    | some child =>
      by_cases hk : child.killed <;>
        simp [stopBackend, hp, hk] at h <;>
        subst h <;> simp [emitExit]
  · intro resid h
    cases hp : s.pythonProcess with
    | none => simp [beforeQuit, stopBackend, hp] at h
    | some child =>
      by_cases hk : child.killed <;>
        simp [beforeQuit, stopBackend, hp, hk] at h <;>
        subst h <;> simp [emitExit]
  · intro child hq
    by_cases hl : child.listenersAttached <;> simp [emitExit, hl, hq]

/-- Witness for C7: stopping the concrete active supervisor clears the
handle, and the stopped child's exit event neither changes state nor shows
the dialog. -/
theorem stop_suppresses_exit_dialog_witness :
    ((stopBackend (Except.ok ()) supWithChild).1.pythonProcess = none)
    ∧ emitExit { childRunning with listenersAttached := false, killed := true }
        (some 1) "SIGTERM" (stopBackend (Except.ok ()) supWithChild).1
      = ((stopBackend (Except.ok ()) supWithChild).1, false) := by
  constructor
  · exact (stop_suppresses_exit_dialog supWithChild (Except.ok ()) (some 1) "SIGTERM").1
  · exact (stop_suppresses_exit_dialog supWithChild (Except.ok ()) (some 1) "SIGTERM").2.1
      { childRunning with listenersAttached := false, killed := true } (by decide)

end BettaFish
